import Mathlib

/-!
Verification of the View (2D camera) module of a graphics binding.

The repository file `src/graphics/view.rs` is a safe wrapper over an
external C library's `sfView_*` functions: every accessor, mutator and
constructor of the Rust `View` / `ViewBox` pair delegates to the foreign
library, whose code is not part of this repository.  We therefore embed
two layers:

1. the foreign `sfView_*` operations, modelled from the spec (each such
   definition carries a doc comment starting `Modelled from the spec:`);
2. the Rust wrapper layer, translated from `src/graphics/view.rs`
   (`View::new`, `View::from_rect`, `ViewBox::default`, the panic on a
   null return, `ToOwned::to_owned`, `Clone::clone`, and the
   pass-through accessors and mutators).

Scalars (`f32` in the source) are modelled as exact rationals, following
the spec's algebraic description of the operations (absolute sets,
`rotation += delta`, `size *= factor` component-wise).

Deep-copy independence of `clone` is stated over an explicit heap of
view allocations, since it is a statement about aliasing of the foreign
allocations owned by `ViewBox` handles.
-/

/-- Modelled from the spec: a 2D point / extent, a plain float pair
`\x7bx, y\x7d`; components modelled as exact rationals. -/
structure Vector2f where
  x : ℚ
  y : ℚ
deriving DecidableEq, Repr

/-- Modelled from the spec: a rectangle `(left, top, width, height)` of
plain float components; components modelled as exact rationals. -/
structure FloatRect where
  left : ℚ
  top : ℚ
  width : ℚ
  height : ℚ
deriving DecidableEq, Repr

/-- Modelled from the spec: the state of a foreign `sfView` allocation —
the data model of §3: `center`, `size`, `rotation` (degrees,
unconstrained range), `viewport` (fractions of the render target).
The Rust accessors `rotation()`, `center()`, `size()`, `viewport()`
read exactly these fields through `sfView_get*`; we use the field
projections as those accessors. -/
structure View where
  center : Vector2f
  size : Vector2f
  rotation : ℚ
  viewport : FloatRect
deriving DecidableEq, Repr

/-- The full-target unit viewport rectangle (0,0,1,1). -/
def fullViewport : FloatRect := ⟨0, 0, 1, 1⟩

/-- Center point of a rectangle: `(left + width/2, top + height/2)`. -/
def rectCenter (r : FloatRect) : Vector2f :=
  ⟨r.left + r.width / 2, r.top + r.height / 2⟩

/-- Extent of a rectangle: `(width, height)`. -/
def rectSize (r : FloatRect) : Vector2f :=
  ⟨r.width, r.height⟩

/-- Modelled from the spec: the state produced by `sfView_create` —
center=(0,0), size=(0,0), rotation=0, viewport=(0,0,1,1). -/
def sfView_createState : View :=
  { center := ⟨0, 0⟩, size := ⟨0, 0⟩, rotation := 0, viewport := fullViewport }

/-- Modelled from the spec: `sfView_create`, an allocating constructor;
`allocOk` abstracts whether the foreign allocation succeeds.  On
success the default state, on allocation exhaustion a null return
(`none`) — no partially constructed view exists. -/
def sfView_create (allocOk : Bool) : Option View :=
  if allocOk then some sfView_createState else none

/-- Modelled from the spec: the state produced by `sfView_createFromRect` —
center = the rectangle's center point, size = its (width, height),
rotation=0, viewport=full. -/
def sfView_createFromRectState (r : FloatRect) : View :=
  { center := rectCenter r, size := rectSize r, rotation := 0, viewport := fullViewport }

/-- Modelled from the spec: `sfView_createFromRect`, an allocating
constructor; fails only on allocation exhaustion (`none`). -/
def sfView_createFromRect (allocOk : Bool) (r : FloatRect) : Option View :=
  if allocOk then some (sfView_createFromRectState r) else none

/-- Modelled from the spec: `sfView_setRotation` — absolute set of the
rotation angle, no wrap-around performed. -/
def sfView_setRotation (v : View) (angle : ℚ) : View :=
  { v with rotation := angle }

/-- Modelled from the spec: `sfView_rotate` — `rotation += delta`,
raw accumulation, no normalization. -/
def sfView_rotate (v : View) (angle : ℚ) : View :=
  { v with rotation := v.rotation + angle }

/-- Modelled from the spec: `sfView_zoom` — `size *= factor`
component-wise; nothing else changes. -/
def sfView_zoom (v : View) (factor : ℚ) : View :=
  { v with size := ⟨v.size.x * factor, v.size.y * factor⟩ }

/-- Modelled from the spec: `sfView_setCenter` — absolute set. -/
def sfView_setCenter (v : View) (c : Vector2f) : View :=
  { v with center := c }

/-- Modelled from the spec: `sfView_setSize` — absolute set. -/
def sfView_setSize (v : View) (s : Vector2f) : View :=
  { v with size := s }

/-- Modelled from the spec: `sfView_move` — `center += offset`. -/
def sfView_move (v : View) (o : Vector2f) : View :=
  { v with center := ⟨v.center.x + o.x, v.center.y + o.y⟩ }

/-- Modelled from the spec: `sfView_setViewport` — absolute set, no
clamping of the fractions. -/
def sfView_setViewport (v : View) (r : FloatRect) : View :=
  { v with viewport := r }

/-- Modelled from the spec: `sfView_reset` — sets center and size from
the rectangle, resets rotation to 0, and does not touch the viewport. -/
def sfView_reset (v : View) (r : FloatRect) : View :=
  { center := rectCenter r, size := rectSize r, rotation := 0, viewport := v.viewport }

/-! ### The Rust wrapper layer, from `src/graphics/view.rs`

Each mutator of `impl View` is an unconditional pass-through to the
corresponding `sfView_*` call on the view's state. -/

/-- `View::set_rotation` (view.rs:78). -/
def View.set_rotation (v : View) (angle : ℚ) : View :=
  sfView_setRotation v angle

/-- `View::rotate` (view.rs:86). -/
def View.rotate (v : View) (angle : ℚ) : View :=
  sfView_rotate v angle

/-- `View::zoom` (view.rs:102). -/
def View.zoom (v : View) (factor : ℚ) : View :=
  sfView_zoom v factor

/-- `View::set_center` (view.rs:110). -/
def View.set_center (v : View) (c : Vector2f) : View :=
  sfView_setCenter v c

/-- `View::set_size` (view.rs:118). -/
def View.set_size (v : View) (s : Vector2f) : View :=
  sfView_setSize v s

/-- `View::move_` (view.rs:126). -/
def View.move_ (v : View) (o : Vector2f) : View :=
  sfView_move v o

/-- `View::set_viewport` (view.rs:141). -/
def View.set_viewport (v : View) (r : FloatRect) : View :=
  sfView_setViewport v r

/-- `View::reset` (view.rs:151). -/
def View.reset (v : View) (r : FloatRect) : View :=
  sfView_reset v r

/-- `ViewBox::default` (view.rs:196-202): calls `sfView_create` and
panics with "Failed to create ViewBox" if the returned pointer is null;
otherwise wraps the allocation.  Panics are modelled as `Except.error`
carrying the panic message. -/
def ViewBox.default (allocOk : Bool) : Except String View :=
  match sfView_create allocOk with
  | some v => Except.ok v
  | none => Except.error "Failed to create ViewBox"

/-- `View::new` (view.rs:55-60): builds a default `ViewBox`, then applies
`set_center` and `set_size` to it. -/
def View.new (allocOk : Bool) (center size : Vector2f) : Except String View :=
  match ViewBox.default allocOk with
  | Except.ok v => Except.ok ((v.set_center center).set_size size)
  | Except.error m => Except.error m

/-- `View::from_rect` (view.rs:66-70): calls `sfView_createFromRect` and
panics with "Failed to create ViewBox from Rect" on a null return. -/
def View.from_rect (allocOk : Bool) (r : FloatRect) : Except String View :=
  match sfView_createFromRect allocOk r with
  | some v => Except.ok v
  | none => Except.error "Failed to create ViewBox from Rect"

/-! ### Heap of foreign view allocations

`ViewBox` owns a pointer to a foreign allocation; `clone`/`to_owned`
calls `sfView_copy`, which allocates a *new* foreign view holding a copy
of the state.  We model the foreign heap as an association list from
allocation ids to view states, with a fresh-id counter. -/

/-- The foreign heap: allocated views indexed by id, plus the next
fresh id. -/
structure Heap where
  mem : List (Nat × View)
  next : Nat
deriving DecidableEq, Repr

/-- Dereference an allocation id (a `ViewBox`'s pointer). -/
def Heap.read (h : Heap) (id : Nat) : Option View :=
  (h.mem.find? (fun p => p.1 = id)).map (fun p => p.2)

/-- In-place mutation through an allocation id: every entry with that id
is overwritten, nothing else changes. -/
def Heap.write (h : Heap) (id : Nat) (v : View) : Heap :=
  { h with mem := h.mem.map (fun p => if p.1 = id then (id, v) else p) }

/-- Allocate a fresh view holding state `v`; returns the new id and heap. -/
def Heap.alloc (h : Heap) (v : View) : Nat × Heap :=
  (h.next, ⟨(h.next, v) :: h.mem, h.next + 1⟩)

/-- Well-formedness: every allocated id is below the fresh-id counter. -/
def Heap.wf (h : Heap) : Prop :=
  ∀ p ∈ h.mem, p.1 < h.next

instance (h : Heap) : Decidable h.wf :=
  inferInstanceAs (Decidable (∀ p ∈ h.mem, p.1 < h.next))

/-- Modelled from the spec: `sfView_copy` — reads the source view's state
and allocates a new, fully independent view with the same state; returns
null (`none`) on allocation exhaustion. -/
def sfView_copy (allocOk : Bool) (h : Heap) (a : Nat) : Option (Nat × Heap) :=
  if allocOk then (h.read a).map (fun va => h.alloc va) else none

/-- `<View as ToOwned>::to_owned` (view.rs:164-174): calls `sfView_copy`
and panics with "Not enough memory to clone ViewBox" on a null return. -/
def View.to_owned (allocOk : Bool) (h : Heap) (a : Nat) : Except String (Nat × Heap) :=
  match sfView_copy allocOk h a with
  | some res => Except.ok res
  | none => Except.error "Not enough memory to clone ViewBox"

/-- `<ViewBox as Clone>::clone` (view.rs:210-215): `(**self).to_owned()`. -/
def ViewBox.clone (allocOk : Bool) (h : Heap) (a : Nat) : Except String (Nat × Heap) :=
  View.to_owned allocOk h a

/-- Spec-side constructor for the refinement claim, following the spec's
words directly: a view with the given center and size, rotation 0 and the
full viewport, built as one record rather than by mutation. -/
def View.new_direct (center size : Vector2f) : View :=
  { center := center, size := size, rotation := 0, viewport := fullViewport }

/-! ### Heap lemmas -/

/-- A readable id is a recorded allocation. -/
theorem Heap.read_some_mem {h : Heap} {a : Nat} {va : View}
    (ha : h.read a = some va) : (a, va) ∈ h.mem := by
  unfold Heap.read at ha
  cases hf : h.mem.find? (fun p => p.1 = a) with
  | none => rw [hf] at ha; simp at ha
  | some p =>
      rw [hf] at ha
      simp at ha
      have hmem := List.mem_of_find?_eq_some hf
      have hkey := List.find?_some hf
      simp at hkey
      cases p with
      | mk k w =>
          simp at hkey ha
          subst hkey
          subst ha
          exact hmem

/-- In a well-formed heap, a readable id is below the fresh-id counter. -/
theorem Heap.read_some_lt {h : Heap} {a : Nat} {va : View}
    (hwf : h.wf) (ha : h.read a = some va) : a < h.next :=
  hwf (a, va) (Heap.read_some_mem ha)

/-- Allocation is read back at the fresh id. -/
theorem Heap.read_alloc_self (h : Heap) (v : View) :
    (h.alloc v).2.read h.next = some v := by
  unfold Heap.alloc Heap.read
  simp [List.find?]

/-- Allocation does not change any other id. -/
theorem Heap.read_alloc_ne (h : Heap) (v : View) {i : Nat} (hne : i ≠ h.next) :
    (h.alloc v).2.read i = h.read i := by
  unfold Heap.alloc Heap.read
  simp only [List.find?]
  have : (decide (h.next = i)) = false := by
    simp
    exact fun hc => hne hc.symm
  rw [this]

/-- Overwriting the entries of one id leaves `find?` for any other id
unchanged. -/
theorem find_map_overwrite (l : List (Nat × View)) (id j : Nat) (v : View)
    (hne : j ≠ id) :
    (l.map (fun p => if p.1 = id then (id, v) else p)).find? (fun p => p.1 = j) =
      l.find? (fun p => p.1 = j) := by
  induction l with
  | nil => rfl
  | cons p tl ih =>
      simp only [List.map_cons, List.find?]
      by_cases hk : p.1 = id
      · have h1 : decide ((id, v).1 = j) = false :=
          decide_eq_false (fun hc => hne hc.symm)
        have h2 : decide (p.1 = j) = false :=
          decide_eq_false (fun hc => hne (hk.symm.trans hc).symm)
        simp only [if_pos hk, h1, h2]
        exact ih
      · simp only [if_neg hk]
        cases hd : decide (p.1 = j) with
        | true => simp only [hd]
        | false => simp only [hd]; exact ih

/-- Writing one id does not change a read of a different id. -/
theorem Heap.read_write_ne (h : Heap) (id : Nat) (v : View) {j : Nat} (hne : j ≠ id) :
    (h.write id v).read j = h.read j := by
  unfold Heap.write Heap.read
  simp only
  rw [find_map_overwrite h.mem id j v hne]

/-! ### Claim theorems -/

/-- C1: for every center C and size S, `View::new(C, S)` yields a view with
center C, size S, rotation 0 and the full unit viewport (0,0,1,1). -/
theorem C1_new_fields (c s : Vector2f) :
    ∃ v, View.new true c s = Except.ok v ∧
      v.center = c ∧ v.size = s ∧ v.rotation = 0 ∧ v.viewport = ⟨0, 0, 1, 1⟩ :=
  ⟨(sfView_createState.set_center c).set_size s, rfl, rfl, rfl, rfl, rfl⟩

/-- C2: for every rectangle R, `View::from_rect(R)` yields a view whose
center is R's center point (left + width/2, top + height/2), whose size
is (R.width, R.height), with rotation 0 and the full unit viewport. -/
theorem C2_from_rect_fields (r : FloatRect) :
    ∃ v, View.from_rect true r = Except.ok v ∧
      v.center = ⟨r.left + r.width / 2, r.top + r.height / 2⟩ ∧
      v.size = ⟨r.width, r.height⟩ ∧ v.rotation = 0 ∧ v.viewport = ⟨0, 0, 1, 1⟩ :=
  ⟨sfView_createFromRectState r, rfl, rfl, rfl, rfl, rfl⟩

/-- C3: the default-constructed view (`ViewBox::default`) has center (0,0),
size (0,0), rotation 0 and viewport (0,0,1,1). -/
theorem C3_default_fields :
    ViewBox.default true = Except.ok sfView_createState ∧
    sfView_createState.center = ⟨0, 0⟩ ∧
    sfView_createState.size = ⟨0, 0⟩ ∧
    sfView_createState.rotation = 0 ∧
    sfView_createState.viewport = ⟨0, 0, 1, 1⟩ :=
  ⟨rfl, rfl, rfl, rfl, rfl⟩

/-- C4: rotation accumulates additively with no wrap-around:
`set_rotation(a)` leaves rotation exactly a (no normalization), and
`rotate(a); rotate(b)` from initial rotation r leaves rotation
r + a + b, with no modular reduction. -/
theorem C4_rotation_accumulates (v : View) (a b : ℚ) :
    (v.set_rotation a).rotation = a ∧
    ((v.rotate a).rotate b).rotation = v.rotation + a + b :=
  ⟨rfl, rfl⟩

/-- C5: `zoom(k)` multiplies both size components by k; `zoom(1)` leaves
the size unchanged; and `zoom(k1); zoom(k2)` produces the same size as a
single `zoom(k1*k2)`. -/
theorem C5_zoom_multiplicative (v : View) (k k1 k2 : ℚ) :
    (v.zoom k).size = ⟨v.size.x * k, v.size.y * k⟩ ∧
    (v.zoom 1).size = v.size ∧
    ((v.zoom k1).zoom k2).size = (v.zoom (k1 * k2)).size := by
  refine ⟨rfl, ?_, ?_⟩
  · simp [View.zoom, sfView_zoom]
  · simp [View.zoom, sfView_zoom, mul_assoc]

/-- C6: for every view state and rectangle R, `reset(R)` sets rotation
to 0 regardless of the prior rotation, sets center to R's center point
and size to (R.width, R.height), and leaves the viewport exactly as it
was. -/
theorem C6_reset (v : View) (r : FloatRect) :
    (v.reset r).rotation = 0 ∧
    (v.reset r).center = ⟨r.left + r.width / 2, r.top + r.height / 2⟩ ∧
    (v.reset r).size = ⟨r.width, r.height⟩ ∧
    (v.reset r).viewport = v.viewport :=
  ⟨rfl, rfl, rfl, rfl⟩

/-- C7: field independence — each of `set_center`, `set_size`,
`set_rotation`, `rotate`, `zoom`, `move_` leaves the viewport (and every
other field it does not target) unchanged, and `set_viewport` leaves
center, size and rotation unchanged. -/
theorem C7_field_independence (v : View) (a k : ℚ) (p s o : Vector2f) (r : FloatRect) :
    ((v.set_center p).size = v.size ∧ (v.set_center p).rotation = v.rotation ∧
      (v.set_center p).viewport = v.viewport) ∧
    ((v.set_size s).center = v.center ∧ (v.set_size s).rotation = v.rotation ∧
      (v.set_size s).viewport = v.viewport) ∧
    ((v.set_rotation a).center = v.center ∧ (v.set_rotation a).size = v.size ∧
      (v.set_rotation a).viewport = v.viewport) ∧
    ((v.rotate a).center = v.center ∧ (v.rotate a).size = v.size ∧
      (v.rotate a).viewport = v.viewport) ∧
    ((v.zoom k).center = v.center ∧ (v.zoom k).rotation = v.rotation ∧
      (v.zoom k).viewport = v.viewport) ∧
    ((v.move_ o).size = v.size ∧ (v.move_ o).rotation = v.rotation ∧
      (v.move_ o).viewport = v.viewport) ∧
    ((v.set_viewport r).center = v.center ∧ (v.set_viewport r).size = v.size ∧
      (v.set_viewport r).rotation = v.rotation) :=
  ⟨⟨rfl, rfl, rfl⟩, ⟨rfl, rfl, rfl⟩, ⟨rfl, rfl, rfl⟩, ⟨rfl, rfl, rfl⟩,
    ⟨rfl, rfl, rfl⟩, ⟨rfl, rfl, rfl⟩, ⟨rfl, rfl, rfl⟩⟩

/-- C8: clone independence — if handle a reads state va and
`ViewBox::clone` of a succeeds, yielding handle b and heap h1, then b
holds exactly va, a still holds va, and mutating either handle (writing
any state through it) leaves the other handle's state untouched. -/
theorem C8_clone_independent (h : Heap) (a b : Nat) (h1 : Heap) (va bv av : View)
    (hwf : h.wf) (ha : h.read a = some va)
    (hc : ViewBox.clone true h a = Except.ok (b, h1)) :
    h1.read b = some va ∧ h1.read a = some va ∧
    (h1.write b bv).read a = some va ∧
    (h1.write a av).read b = some va := by
  have hlt : a < h.next := Heap.read_some_lt hwf ha
  have hne : a ≠ h.next := Nat.ne_of_lt hlt
  have hc' : Except.ok (ε := String) (h.alloc va) = Except.ok (b, h1) := by
    unfold ViewBox.clone View.to_owned sfView_copy at hc
    rw [if_pos rfl, ha] at hc
    exact hc
  injection hc' with h2
  obtain ⟨hb, hh1⟩ : h.next = b ∧ (h.alloc va).2 = h1 :=
    ⟨congrArg Prod.fst h2, congrArg Prod.snd h2⟩
  subst hb
  subst hh1
  have h1ra : (h.alloc va).2.read a = some va :=
    (Heap.read_alloc_ne h va hne).trans ha
  have h1rb : (h.alloc va).2.read h.next = some va :=
    Heap.read_alloc_self h va
  exact ⟨h1rb, h1ra,
    (Heap.read_write_ne _ _ bv hne).trans h1ra,
    (Heap.read_write_ne _ _ av (Ne.symm hne)).trans h1rb⟩

/-- Concrete instantiation of the clone-independence theorem: a one-view
heap, its view cloned into id 1, both handles then overwritten with a
different state. -/
theorem C8_clone_independent_witness :
    Heap.read ⟨[(1, sfView_createState), (0, sfView_createState)], 2⟩ 1 = some sfView_createState ∧
    Heap.read ⟨[(1, sfView_createState), (0, sfView_createState)], 2⟩ 0 = some sfView_createState ∧
    (Heap.write ⟨[(1, sfView_createState), (0, sfView_createState)], 2⟩ 1
      (sfView_createFromRectState ⟨1, 2, 3, 4⟩)).read 0 = some sfView_createState ∧
    (Heap.write ⟨[(1, sfView_createState), (0, sfView_createState)], 2⟩ 0
      (sfView_createFromRectState ⟨1, 2, 3, 4⟩)).read 1 = some sfView_createState :=
  C8_clone_independent ⟨[(0, sfView_createState)], 1⟩ 0 1
    ⟨[(1, sfView_createState), (0, sfView_createState)], 2⟩
    sfView_createState (sfView_createFromRectState ⟨1, 2, 3, 4⟩)
    (sfView_createFromRectState ⟨1, 2, 3, 4⟩)
    (by decide) rfl rfl

/-- C9: accessors and mutators are embedded as total functions (no
failure path exists for them); construction and copy succeed exactly
when the underlying allocation succeeds, and on allocation exhaustion
they yield a distinct panic message and no view value at all. -/
theorem C9_failure_modes (ok : Bool) (c s : Vector2f) (r : FloatRect)
    (h : Heap) (a : Nat) (va : View) (ha : h.read a = some va) :
    ((∃ v, ViewBox.default ok = Except.ok v) ↔ ok = true) ∧
    (ok = false → ViewBox.default ok = Except.error "Failed to create ViewBox") ∧
    ((∃ v, View.new ok c s = Except.ok v) ↔ ok = true) ∧
    (ok = false → View.new ok c s = Except.error "Failed to create ViewBox") ∧
    ((∃ v, View.from_rect ok r = Except.ok v) ↔ ok = true) ∧
    (ok = false → View.from_rect ok r = Except.error "Failed to create ViewBox from Rect") ∧
    ((∃ res, View.to_owned ok h a = Except.ok res) ↔ ok = true) ∧
    (ok = false → View.to_owned ok h a = Except.error "Not enough memory to clone ViewBox") := by
  cases ok with
  | true =>
      simp [ViewBox.default, View.new, View.from_rect, View.to_owned,
        sfView_create, sfView_createFromRect, sfView_copy, ha]
  | false =>
      simp [ViewBox.default, View.new, View.from_rect, View.to_owned,
        sfView_create, sfView_createFromRect, sfView_copy]

/-- Concrete instantiation of the failure-mode theorem at a successful
allocation and a one-view heap. -/
theorem C9_failure_modes_witness :
    ((∃ v, ViewBox.default true = Except.ok v) ↔ true = true) ∧
    (true = false → ViewBox.default true = Except.error "Failed to create ViewBox") ∧
    ((∃ v, View.new true ⟨3, 4⟩ ⟨5, 6⟩ = Except.ok v) ↔ true = true) ∧
    (true = false → View.new true ⟨3, 4⟩ ⟨5, 6⟩ = Except.error "Failed to create ViewBox") ∧
    ((∃ v, View.from_rect true ⟨0, 0, 1, 1⟩ = Except.ok v) ↔ true = true) ∧
    (true = false →
      View.from_rect true ⟨0, 0, 1, 1⟩ = Except.error "Failed to create ViewBox from Rect") ∧
    ((∃ res, View.to_owned true ⟨[(0, sfView_createState)], 1⟩ 0 = Except.ok res) ↔ true = true) ∧
    (true = false →
      View.to_owned true ⟨[(0, sfView_createState)], 1⟩ 0 =
        Except.error "Not enough memory to clone ViewBox") :=
  C9_failure_modes true ⟨3, 4⟩ ⟨5, 6⟩ ⟨0, 0, 1, 1⟩
    ⟨[(0, sfView_createState)], 1⟩ 0 sfView_createState rfl

/-- C10: `View::new(C, S)` is observably the default-constructed view
with `set_center(C)` and then `set_size(S)` applied, which in turn
equals the directly built record with center C, size S, rotation 0 and
full viewport; in particular its rotation and viewport are exactly the
default view's. -/
theorem C10_new_refines_default (c s : Vector2f) :
    View.new true c s = Except.ok ((sfView_createState.set_center c).set_size s) ∧
    (sfView_createState.set_center c).set_size s = View.new_direct c s ∧
    (View.new_direct c s).rotation = sfView_createState.rotation ∧
    (View.new_direct c s).viewport = sfView_createState.viewport :=
  ⟨rfl, rfl, rfl, rfl⟩
